import Mathlib

/-!
# Verification of the WebRTC signaling broker and session orchestrators

Shallow embedding of `webrtc_wrapper.py`:

* the signaling broker (`WebRTCWrapper.start_signaling_server`'s inner
  `handler`) is modelled as a state machine over the two role slots
  (`self.clients`) and the two pending queues (`self.message_queue`),
  processing one channel event (role declaration, relayed message,
  disconnect) at a time, as in the spec's single-threaded cooperative
  scheduling model;
* the sender / receiver orchestrators (`run_sender`, `run_receiver`) are
  modelled as functions from their environment (whether a reply arrives
  within the 30-unit timeout, whether media tracks exist, the track
  liveness signal) to a record of their observable behaviour;
* `get_default_source` and `WebRTCWrapper.__init__`'s source defaulting
  are modelled directly over an OS enumeration and Python truthiness.
-/

namespace WebRTC

/-- The two broker roles. The Python broker keys its `clients` and
`message_queue` dictionaries by the strings "sender" and "receiver". -/
inductive Role
  | sender
  | receiver
deriving DecidableEq, Repr, Fintype

/-- The wire string for a role, as used as dictionary key in the code. -/
def Role.str : Role → String
  | .sender => "sender"
  | .receiver => "receiver"

/-- `target = "receiver" if role == "sender" else "sender"` (line 93). -/
def Role.opposite : Role → Role
  | .sender => .receiver
  | .receiver => .sender

/-- Role validation: `role not in self.clients` (line 78). The `clients`
dictionary has exactly the keys "sender" and "receiver". -/
def parseRole (decl : String) : Option Role :=
  if decl = "sender" then some .sender
  else if decl = "receiver" then some .receiver
  else none

/-- Channels are identified abstractly. -/
abbrev ChannelId := Nat

/-- Relayed payloads are opaque text messages. -/
abbrev Msg := String

/-- Broker state: `self.clients = {"sender": None, "receiver": None}` and
`self.message_queue = {"sender": [], "receiver": []}` (lines 35-37). -/
structure BrokerState where
  clients : Role → Option ChannelId
  message_queue : Role → List Msg

/-- The broker's initial state (constructor, lines 35-37). -/
def initBroker : BrokerState :=
  { clients := fun _ => none, message_queue := fun _ => [] }

/-- Update one role's slot. -/
def BrokerState.setClient (s : BrokerState) (r : Role) (v : Option ChannelId) :
    BrokerState :=
  { s with clients := fun r' => if r' = r then v else s.clients r' }

/-- Update one role's pending queue. -/
def BrokerState.setQueue (s : BrokerState) (r : Role) (q : List Msg) :
    BrokerState :=
  { s with message_queue := fun r' => if r' = r then q else s.message_queue r' }

/-- One event a channel handler can observe, in the cooperative
single-scheduler model: the first message on a fresh channel (the role
declaration, line 74), a subsequent message received on a channel whose
handler declared role `r` (line 91), or closure of that channel
(`websockets.exceptions.ConnectionClosed`, line 103). -/
inductive Event
  | connect (c : ChannelId) (decl : String)
  | recvMsg (r : Role) (m : Msg)
  | disconnect (r : Role) (c : ChannelId)

/-- Observable broker outputs: a relayed send on a channel annotated with
the role whose slot the target channel occupies, the literal
`"Invalid role"` reply (line 79), and a channel close (the `websockets`
server closes the connection when the handler returns). -/
inductive Out
  | sendTo (r : Role) (c : ChannelId) (m : Msg)
  | sendText (c : ChannelId) (t : String)
  | closeChan (c : ChannelId)
deriving DecidableEq, Repr

/-- One step of the broker, translating the body of `handler`
(lines 72-106):

* `connect c decl`: read the role declaration. If invalid, reply
  `"Invalid role"` and return, which closes the channel (lines 78-80);
  otherwise bind the slot (`self.clients[role] = websocket`, line 83) and
  drain that role's pending queue in FIFO order
  (`while self.message_queue[role]: await websocket.send(...pop(0))`,
  lines 86-87). Note the code does NOT close a previously bound channel.
* `recvMsg r m`: relay loop body (lines 90-101): compute the opposite
  role; if its slot is bound, forward immediately, else append to its
  pending queue.
* `disconnect r c`: the `ConnectionClosed` handler (lines 103-106):
  `self.clients[role] = None` and the relay loop for that channel
  terminates (the handler emits no further events). The code unbinds by
  role only, ignoring which channel the handler actually held. -/
def step (s : BrokerState) : Event → BrokerState × List Out
  | .connect c decl =>
    match parseRole decl with
    | none => (s, [.sendText c "Invalid role", .closeChan c])
    | some r =>
      let q := s.message_queue r
      ((s.setClient r (some c)).setQueue r [], q.map (Out.sendTo r c))
  | .recvMsg r m =>
    let target := r.opposite
    match s.clients target with
    | some c => (s, [.sendTo target c m])
    | none => (s.setQueue target (s.message_queue target ++ [m]), [])
  | .disconnect r _ => (s.setClient r none, [])

/-- Run the broker over a list of events, concatenating outputs. -/
def run (s : BrokerState) : List Event → BrokerState × List Out
  | [] => (s, [])
  | e :: es =>
    let (s', outs) := step s e
    let (s'', outs') := run s' es
    (s'', outs ++ outs')

/-- Messages addressed to role `R` arriving at the broker in an event
list: a message received on the opposite role's channel is addressed
to `R`. -/
def arrivalsTo (R : Role) : List Event → List Msg
  | [] => []
  | .recvMsg r m :: es =>
    if r.opposite = R then m :: arrivalsTo R es else arrivalsTo R es
  | _ :: es => arrivalsTo R es

/-- Messages addressed to role `R` in a single event. -/
def arrivalsOf (R : Role) : Event → List Msg
  | .recvMsg r m => if r.opposite = R then [m] else []
  | _ => []

/-- Messages delivered to role `R`'s bound channel in an output list. -/
def deliveredTo (R : Role) : List Out → List Msg
  | [] => []
  | .sendTo r _ m :: os =>
    if r = R then m :: deliveredTo R os else deliveredTo R os
  | _ :: os => deliveredTo R os

/-- Channels closed by the environment in an event: a `disconnect` event
means the peer closed that channel. -/
def closedBy : Event → List ChannelId
  | .disconnect _ c => [c]
  | _ => []

/-- Channels the broker itself closes in an output list. -/
def closedOf (os : List Out) : List ChannelId :=
  os.filterMap fun o =>
    match o with
    | .closeChan c => some c
    | _ => none

/-- Slot/closed-set consistency: no closed channel occupies a slot. -/
def Inv (s : BrokerState) (closed : List ChannelId) : Prop :=
  ∀ R c, s.clients R = some c → c ∉ closed

/-- Well-formedness of an event against a state: a connecting channel is a
fresh connection (not a closed or already-bound channel id), and a channel
whose handler declared role `r` is never simultaneously bound in the
opposite slot (each channel declares exactly one role). -/
def freshFor (s : BrokerState) (closed : List ChannelId) : Event → Prop
  | .connect c _ => c ∉ closed ∧ ∀ R, s.clients R ≠ some c
  | .disconnect r c => s.clients r.opposite ≠ some c
  | .recvMsg _ _ => True

/-- Reachable-state invariant of the broker: a role's pending queue is
non-empty only while that role's slot is unbound (spec §3). -/
def goodState (s : BrokerState) : Prop :=
  ∀ R, s.message_queue R ≠ [] → s.clients R = none

/-! ## Session orchestrators (`run_sender`, lines 113-187, and
`run_receiver`, lines 189-339) -/

/-- The session-orchestrator states of the spec's state machine. -/
inductive SState
  | negotiating
  | active
  | closing
  | closed
deriving DecidableEq, Repr

/-- An observable close of one of the two resources an orchestrator owns:
its RTC engine connection (`pc`) and its rendezvous channel (the
websocket). -/
inductive CloseEvt
  | engine
  | channel
deriving DecidableEq, Repr

/-- The resource state of one orchestrator run. -/
structure Resources where
  engineClosed : Bool
  channelClosed : Bool
deriving DecidableEq, Repr

/-- Modelled from the spec: the RTC Engine's `close()` (§6) — the engine is
an external collaborator (aiortc), so its close semantics are not in
`src/`. Per its interface, closing an already-closed connection is a no-op
that raises no error; an observable close is the transition from open to
closed. -/
def engineClose (r : Resources) : Resources × List CloseEvt :=
  if r.engineClosed then (r, [])
  else ({ r with engineClosed := true }, [CloseEvt.engine])

/-- Modelled from the spec: the rendezvous channel's `close` (§6) — the
channel is an external collaborator (websockets), closed by exiting the
`async with` block; closing twice is a no-op. -/
def channelClose (r : Resources) : Resources × List CloseEvt :=
  if r.channelClosed then (r, [])
  else ({ r with channelClosed := true }, [CloseEvt.channel])

/-- The teardown path shared by both orchestrators: the `finally` block
runs `await pc.close()` (lines 186, 337) and leaving the `async with`
closes the rendezvous channel. -/
def teardown (r : Resources) : Resources × List CloseEvt :=
  let (r1, e1) := engineClose r
  let (r2, e2) := channelClose r1
  (r2, e1 ++ e2)

/-- `monitor_video_track` (lines 164-177): poll
`video_track.readyState` every 0.1 s while it equals "live"; at the first
poll observing any other state, log and `await pc.close()`. The result is
the index of the poll at which the close happens (`none` if the track is
still live after `fuel` polls). -/
def monitorVideoTrack (readyState : Nat → String) : Nat → Option Nat
  | 0 => none
  | fuel + 1 =>
    if readyState 0 = "live" then
      (monitorVideoTrack (fun k => readyState (k + 1)) fuel).map (· + 1)
    else some 0

/-- Environment of one `run_sender` run: whether `player.video` /
`player.audio` are truthy, whether a reply arrives on the rendezvous
channel within the 30-unit timeout (line 152), and whether the offered
video track's liveness signal eventually reports ended. -/
structure SenderEnv where
  hasVideo : Bool
  hasAudio : Bool
  reply30 : Option Msg
  trackEnds : Bool

/-- Observable outcome of one orchestrator run. -/
structure OrchOutcome where
  sentRole : String
  timedOut : Bool
  remoteApplied : Bool
  answerSent : Bool
  enteredActive : Bool
  monitorStarted : Bool
  connectAttempts : Nat
  closeEvents : List CloseEvt
  resources : Resources
  finalState : SState
  failed : Bool
deriving DecidableEq, Repr

/-- `run_sender` (lines 113-187): open the rendezvous channel, send the
role token "sender" and the offer, then await the answer with
`asyncio.wait_for(websocket.recv(), timeout=30)`.

* On `asyncio.TimeoutError` (lines 153-155): log the timeout and
  `return`; the `finally` closes the engine and the `async with` closes
  the channel. The answer is never applied, ACTIVE is never entered, and
  there is no retry (a single connection attempt).
* On a reply: `setRemoteDescription(answer)` (line 160) enters ACTIVE; if
  a video track was offered, `monitor_video_track` is scheduled
  (lines 163-177) and closes the engine when the track's liveness signal
  reports ended; the keep-alive loop (lines 180-181) exits once the
  connection state is "closed", after which the `finally` closes the
  engine again and the `async with` closes the channel. This branch
  models a run that has terminated (the keep-alive loop has exited). -/
def run_sender (env : SenderEnv) : OrchOutcome :=
  let r0 : Resources := { engineClosed := false, channelClosed := false }
  match env.reply30 with
  | none =>
    let (r1, e1) := teardown r0
    { sentRole := "sender", timedOut := true, remoteApplied := false,
      answerSent := false, enteredActive := false, monitorStarted := false,
      connectAttempts := 1, closeEvents := e1, resources := r1,
      finalState := .closed, failed := true }
  | some _ =>
    let (rMon, eMon) :=
      if env.hasVideo && env.trackEnds then engineClose r0 else (r0, [])
    let (r1, e1) := teardown rMon
    { sentRole := "sender", timedOut := false, remoteApplied := true,
      answerSent := false, enteredActive := true,
      monitorStarted := env.hasVideo,
      connectAttempts := 1, closeEvents := eMon ++ e1, resources := r1,
      finalState := .closed, failed := false }

/-- Environment of one `run_receiver` run: whether the offer arrives
within the 30-unit timeout (line 282), and which of the close triggers
fire during the session: `MediaStreamError` on the track (line 247), the
'q' key (line 265), the ICE connection state reaching "closed"
(line 305), and SIGINT (line 313). Each trigger calls `pc.close()` on the
same connection. -/
structure ReceiverEnv where
  reply30 : Option Msg
  streamEnds : Bool
  keyQuit : Bool
  peerCloses : Bool
  interrupted : Bool

/-- `run_receiver` (lines 189-339): open the rendezvous channel, send the
role token "receiver", await the offer with timeout 30.

* On `asyncio.TimeoutError` (lines 283-285): log and `return`; the
  `finally` closes the engine (line 337) and the `async with` closes the
  channel. The offer is never applied, no answer is sent, ACTIVE is never
  entered, no retry.
* On a reply: apply the offer, create and send the answer (ACTIVE); any
  of the four triggers may call `pc.close()`, and finally the `finally`
  block and `async with` exit run the shared teardown. This branch models
  a run that has terminated (the keep-alive loop has exited). -/
def run_receiver (env : ReceiverEnv) : OrchOutcome :=
  let r0 : Resources := { engineClosed := false, channelClosed := false }
  match env.reply30 with
  | none =>
    let (r1, e1) := teardown r0
    { sentRole := "receiver", timedOut := true, remoteApplied := false,
      answerSent := false, enteredActive := false, monitorStarted := false,
      connectAttempts := 1, closeEvents := e1, resources := r1,
      finalState := .closed, failed := true }
  | some _ =>
    let (rA, eA) := if env.streamEnds then engineClose r0 else (r0, [])
    let (rB, eB) := if env.keyQuit then engineClose rA else (rA, [])
    let (rC, eC) := if env.peerCloses then engineClose rB else (rB, [])
    let (rD, eD) := if env.interrupted then engineClose rC else (rC, [])
    let (r1, e1) := teardown rD
    { sentRole := "receiver", timedOut := false, remoteApplied := true,
      answerSent := true, enteredActive := true, monitorStarted := false,
      connectAttempts := 1, closeEvents := eA ++ eB ++ eC ++ eD ++ e1,
      resources := r1, finalState := .closed, failed := false }

/-! ## Constructor and default source (`__init__`, lines 20-38, and
`get_default_source`, lines 40-58) -/

/-- A Python value usable as the `source` argument: `None`, a string, or
an integer. -/
inductive Source
  | pyNone
  | str (s : String)
  | int (n : Int)
deriving DecidableEq, Repr

/-- Python truthiness, as tested by `source or self.get_default_source()`
(line 32): `None`, the empty string and `0` are falsy. -/
def Source.truthy : Source → Bool
  | .pyNone => false
  | .str s => s ≠ ""
  | .int n => n ≠ 0

/-- `get_default_source` (lines 40-58), branching on `platform.system()`:
"/dev/video0" on Linux, "default:none" on Darwin, camera index `0` on
Windows, `RuntimeError("Unsupported OS")` otherwise. -/
def get_default_source (system : String) : Except String Source :=
  if system = "Linux" then .ok (.str "/dev/video0")
  else if system = "Darwin" then .ok (.str "default:none")
  else if system = "Windows" then .ok (.int 0)
  else .error "Unsupported OS"

/-- The constructor's source initialization (line 32):
`self.source = source or self.get_default_source()`. Python's `or`
short-circuits, so `get_default_source` runs only when `source` is
falsy. -/
def initSource (system : String) (source : Source) : Except String Source :=
  if source.truthy then .ok source else get_default_source system

/-- A concrete liveness signal for examples: live for two polls, then
ended. -/
def rsExample : Nat → String :=
  fun i => if i < 2 then "live" else "ended"

/-! ## Helper lemmas -/

lemma Role.opposite_opposite (r : Role) : r.opposite.opposite = r := by
  cases r <;> rfl

lemma Role.opposite_ne (r : Role) : r.opposite ≠ r := by
  cases r <;> decide

lemma Role.eq_opposite_of_ne {R r : Role} (h : R ≠ r) : R = r.opposite := by
  cases R <;> cases r <;> first | rfl | exact absurd rfl h

lemma parseRole_str (R : Role) : parseRole R.str = some R := by
  cases R <;> rfl

/-! ## Claim theorems -/

/-- C5. A first message that is not exactly "sender" or "receiver" gets
the error reply `"Invalid role"` on that channel, the channel is closed
(the handler returns), and the broker state — both slots and both pending
queues — is completely unchanged: no slot is bound for an invalid role
declaration. -/
theorem invalid_role_error_reply (s : BrokerState) (c : ChannelId)
    (decl : String) (h1 : decl ≠ "sender") (h2 : decl ≠ "receiver") :
    step s (.connect c decl) =
      (s, [.sendText c "Invalid role", .closeChan c]) := by
  simp [step, parseRole, h1, h2]

/-- Witness for C5 at the concrete declaration "offer". -/
theorem invalid_role_error_reply_witness :
    (("offer" : String) ≠ "sender" ∧ ("offer" : String) ≠ "receiver") ∧
    step initBroker (.connect 0 "offer") =
      (initBroker, [.sendText 0 "Invalid role", .closeChan 0]) :=
  ⟨⟨by decide, by decide⟩,
    invalid_role_error_reply initBroker 0 "offer" (by decide) (by decide)⟩

/-- C6. When a bound channel closes (`ConnectionClosed`), the broker sets
exactly that channel's role slot to empty and emits nothing: the other
role's slot is unchanged, both pending queues are unchanged, and no
channel is closed by the broker (in particular not the other role's
channel). The relay loop for the closed channel terminates: a
`disconnect` is the final event its handler produces. -/
theorem disconnect_unbinds_only_own_slot (s : BrokerState) (r : Role)
    (c : ChannelId) (h : s.clients r = some c) :
    (step s (.disconnect r c)).2 = [] ∧
    (step s (.disconnect r c)).1.clients r = none ∧
    (step s (.disconnect r c)).1.clients r.opposite = s.clients r.opposite ∧
    ∀ R, (step s (.disconnect r c)).1.message_queue R = s.message_queue R := by
  refine ⟨rfl, ?_, ?_, fun R => rfl⟩
  · simp [step, BrokerState.setClient]
  · simp [step, BrokerState.setClient, Role.opposite_ne r]

/-- Witness for C6: channel 0 bound as sender disconnects. -/
theorem disconnect_unbinds_only_own_slot_witness :
    ((initBroker.setClient .sender (some 0)).clients .sender = some 0) ∧
    ((step (initBroker.setClient .sender (some 0))
        (.disconnect .sender 0)).2 = [] ∧
      (step (initBroker.setClient .sender (some 0))
        (.disconnect .sender 0)).1.clients .sender = none ∧
      (step (initBroker.setClient .sender (some 0))
        (.disconnect .sender 0)).1.clients Role.sender.opposite =
        (initBroker.setClient .sender (some 0)).clients Role.sender.opposite ∧
      ∀ R, (step (initBroker.setClient .sender (some 0))
        (.disconnect .sender 0)).1.message_queue R =
        (initBroker.setClient .sender (some 0)).message_queue R) :=
  ⟨by decide,
    disconnect_unbinds_only_own_slot _ .sender 0 (by decide)⟩

/-- C3 (code evaluation at the failing input). Binding channel 1 to the
sender slot while channel 0 is already bound there produces NO outputs at
all — in particular no `closeChan 0` — and simply overwrites the slot
with channel 1. The superseded channel 0 is left open, contradicting the
spec's close-before-replace rule (the spec's own design notes, §9, flag
this silent overwrite in the source as a latent leak). -/
theorem superseding_bind_leaves_channel_open :
    (step (initBroker.setClient .sender (some 0)) (.connect 1 "sender")).2
      = [] ∧
    Out.closeChan 0 ∉
      (step (initBroker.setClient .sender (some 0)) (.connect 1 "sender")).2 ∧
    (step (initBroker.setClient .sender (some 0))
        (.connect 1 "sender")).1.clients .sender = some 1 := by
  decide

/-- C7. In both orchestrators, when no reply arrives within the 30-unit
timeout, the run reports the timeout, never applies the received
descriptor, never enters ACTIVE, makes exactly one connection attempt (no
retry), and still produces exactly one observable close of the engine and
one of the rendezvous channel, ending in CLOSED with failure. -/
theorem negotiation_timeout_closed_failed (senv : SenderEnv)
    (renv : ReceiverEnv) (hs : senv.reply30 = none)
    (hr : renv.reply30 = none) :
    run_sender senv =
      { sentRole := "sender", timedOut := true, remoteApplied := false,
        answerSent := false, enteredActive := false, monitorStarted := false,
        connectAttempts := 1,
        closeEvents := [CloseEvt.engine, CloseEvt.channel],
        resources := { engineClosed := true, channelClosed := true },
        finalState := .closed, failed := true } ∧
    run_receiver renv =
      { sentRole := "receiver", timedOut := true, remoteApplied := false,
        answerSent := false, enteredActive := false, monitorStarted := false,
        connectAttempts := 1,
        closeEvents := [CloseEvt.engine, CloseEvt.channel],
        resources := { engineClosed := true, channelClosed := true },
        finalState := .closed, failed := true } := by
  constructor
  · simp [run_sender, hs, teardown, engineClose, channelClose]
  · simp [run_receiver, hr, teardown, engineClose, channelClose]

/-- Witness for C7 at concrete timed-out environments. -/
theorem negotiation_timeout_closed_failed_witness :
    ((⟨false, false, none, false⟩ : SenderEnv).reply30 = none ∧
      (⟨none, false, false, false, false⟩ : ReceiverEnv).reply30 = none) ∧
    (run_sender ⟨false, false, none, false⟩ =
      { sentRole := "sender", timedOut := true, remoteApplied := false,
        answerSent := false, enteredActive := false, monitorStarted := false,
        connectAttempts := 1,
        closeEvents := [CloseEvt.engine, CloseEvt.channel],
        resources := { engineClosed := true, channelClosed := true },
        finalState := .closed, failed := true } ∧
    run_receiver ⟨none, false, false, false, false⟩ =
      { sentRole := "receiver", timedOut := true, remoteApplied := false,
        answerSent := false, enteredActive := false, monitorStarted := false,
        connectAttempts := 1,
        closeEvents := [CloseEvt.engine, CloseEvt.channel],
        resources := { engineClosed := true, channelClosed := true },
        finalState := .closed, failed := true }) :=
  ⟨⟨rfl, rfl⟩,
    negotiation_timeout_closed_failed ⟨false, false, none, false⟩
      ⟨none, false, false, false, false⟩ rfl rfl⟩

/-- C9. Teardown is idempotent: running the teardown path a second time
on the resources left by a first run changes nothing and produces no
observable close event (and no error — the modelled close operations are
total). Moreover, over every environment — including every combination of
the racing close triggers (track ended, stream ended, 'q' key, peer
close, SIGINT) followed by the `finally` teardown — each orchestrator run
produces exactly one observable close of the engine and exactly one of
the rendezvous channel. -/
theorem teardown_idempotent :
    (∀ r : Resources, teardown (teardown r).1 = ((teardown r).1, [])) ∧
    (∀ env : SenderEnv,
      (run_sender env).closeEvents.count CloseEvt.engine = 1 ∧
      (run_sender env).closeEvents.count CloseEvt.channel = 1) ∧
    (∀ env : ReceiverEnv,
      (run_receiver env).closeEvents.count CloseEvt.engine = 1 ∧
      (run_receiver env).closeEvents.count CloseEvt.channel = 1) := by
  refine ⟨?_, ?_, ?_⟩
  · rintro ⟨e, c⟩
    cases e <;> cases c <;> rfl
  · rintro ⟨hv, ha, rep, te⟩
    cases rep <;> cases hv <;> cases te <;> exact ⟨rfl, rfl⟩
  · rintro ⟨rep, se, kq, pc, ir⟩
    cases rep <;> cases se <;> cases kq <;> cases pc <;> cases ir <;>
      exact ⟨rfl, rfl⟩

/-- C10. `source or get_default_source()`: a truthy caller-supplied
source is stored unchanged; an absent or falsy source is replaced by the
OS default — "/dev/video0" on Linux, "default:none" on Darwin, camera
index 0 on Windows — and any other OS makes `get_default_source` raise
`RuntimeError("Unsupported OS")`. -/
theorem default_source_selection :
    (∀ (sys : String) (src : Source), src.truthy = true →
      initSource sys src = .ok src) ∧
    (∀ (sys : String) (src : Source), src.truthy = false →
      initSource sys src = get_default_source sys) ∧
    get_default_source "Linux" = .ok (.str "/dev/video0") ∧
    get_default_source "Darwin" = .ok (.str "default:none") ∧
    get_default_source "Windows" = .ok (.int 0) ∧
    (∀ sys : String, sys ≠ "Linux" → sys ≠ "Darwin" → sys ≠ "Windows" →
      get_default_source sys = .error "Unsupported OS") := by
  refine ⟨?_, ?_, rfl, rfl, rfl, ?_⟩
  · intro sys src h
    simp [initSource, h]
  · intro sys src h
    simp [initSource, h]
  · intro sys h1 h2 h3
    simp [get_default_source, h1, h2, h3]

/-- Witness for C10: a truthy file path is kept; `None` falls back to the
Linux default; an unsupported OS raises. -/
theorem default_source_selection_witness :
    ((Source.str "video.mp4").truthy = true ∧
      initSource "Linux" (.str "video.mp4") = .ok (.str "video.mp4")) ∧
    (Source.pyNone.truthy = false ∧
      initSource "Linux" .pyNone = get_default_source "Linux") ∧
    (("Plan9" : String) ≠ "Linux" ∧ ("Plan9" : String) ≠ "Darwin" ∧
      ("Plan9" : String) ≠ "Windows" ∧
      get_default_source "Plan9" = .error "Unsupported OS") :=
  ⟨⟨by decide, default_source_selection.1 "Linux" (.str "video.mp4") (by decide)⟩,
    ⟨rfl, default_source_selection.2.1 "Linux" .pyNone rfl⟩,
    ⟨by decide, by decide, by decide,
      default_source_selection.2.2.2.2.2 "Plan9" (by decide) (by decide)
        (by decide)⟩⟩

/-- The monitor loop closes the connection at the first poll observing a
non-live state: helper for C8. -/
lemma monitor_finds_first (fuel : Nat) :
    ∀ (rs : Nat → String) (k : Nat), k < fuel → rs k ≠ "live" →
      ∃ j, monitorVideoTrack rs fuel = some j ∧ j ≤ k ∧ rs j ≠ "live" ∧
        ∀ i, i < j → rs i = "live" := by
  induction fuel with
  | zero => intro rs k hk; omega
  | succ n ih =>
    intro rs k hk hne
    by_cases h0 : rs 0 = "live"
    · have hk0 : k ≠ 0 := by
        rintro rfl
        exact hne h0
      have hk1 : k - 1 < n := by omega
      have hs : (fun i => rs (i + 1)) (k - 1) ≠ "live" := by
        have : k - 1 + 1 = k := by omega
        simpa [this] using hne
      obtain ⟨j, hmon, hjk, hj, hbelow⟩ := ih (fun i => rs (i + 1)) (k - 1) hk1 hs
      refine ⟨j + 1, ?_, by omega, hj, ?_⟩
      · simp [monitorVideoTrack, h0, hmon]
      · intro i hi
        cases i with
        | zero => exact h0
        | succ i' => exact hbelow i' (by omega)
    · exact ⟨0, by simp [monitorVideoTrack, h0], Nat.zero_le _, h0,
        fun i hi => absurd hi (Nat.not_lt_zero i)⟩

/-- C8. If a video track was offered and negotiation succeeded, the
monitor is started; and whenever the track's liveness signal reports
"ended" at some poll `k` (within the modelled horizon), the monitor
closes the engine at the first poll `j ≤ k` at which the signal is no
longer "live" — i.e. within one poll interval of the signal reporting
ended, independent of the connection-state signal, which the monitor
never consults. -/
theorem track_ended_closes_within_poll :
    (∀ env : SenderEnv, env.reply30.isSome = true → env.hasVideo = true →
      (run_sender env).monitorStarted = true) ∧
    (∀ (rs : Nat → String) (fuel k : Nat), k < fuel → rs k = "ended" →
      ∃ j, monitorVideoTrack rs fuel = some j ∧ j ≤ k ∧ rs j ≠ "live" ∧
        ∀ i, i < j → rs i = "live") := by
  constructor
  · rintro ⟨hv, ha, rep, te⟩ hrep hhv
    cases rep with
    | none => simp at hrep
    | some m => simpa [run_sender] using hhv
  · intro rs fuel k hk hend
    exact monitor_finds_first fuel rs k hk (by simp [hend])

/-- Witness for C8: with the concrete signal `rsExample`, the monitor
closes at poll 2, the first non-live poll. -/
theorem track_ended_closes_within_poll_witness :
    ((⟨true, false, some "answer", true⟩ : SenderEnv).reply30.isSome = true ∧
      (⟨true, false, some "answer", true⟩ : SenderEnv).hasVideo = true ∧
      (run_sender ⟨true, false, some "answer", true⟩).monitorStarted = true) ∧
    (2 < 5 ∧ rsExample 2 = "ended" ∧
      ∃ j, monitorVideoTrack rsExample 5 = some j ∧ j ≤ 2 ∧
        rsExample j ≠ "live" ∧ ∀ i, i < j → rsExample i = "live") :=
  ⟨⟨rfl, rfl,
      track_ended_closes_within_poll.1 ⟨true, false, some "answer", true⟩ rfl rfl⟩,
    ⟨by decide, rfl,
      track_ended_closes_within_poll.2 rsExample 5 2 (by decide) rfl⟩⟩

/-- C1. (a) A message addressed to role `R` (received on the opposite
role's channel) while `R`'s slot is unbound is appended to `R`'s pending
queue and nothing is sent; (b) when a channel next binds to `R`'s slot,
the step binds the slot and emits exactly the queued messages to that
channel in FIFO order, emptying the queue; (c) in a run, those drain
sends precede every output of any later event — in particular any further
message processed on the binding channel; (d) every send the broker ever
emits goes to a channel occupying a slot at that point, so no queued
message is sent before `R`'s slot is bound. -/
theorem pending_queue_fifo_drain :
    (∀ (s : BrokerState) (R : Role) (m : Msg), s.clients R = none →
      step s (.recvMsg R.opposite m) =
        (s.setQueue R (s.message_queue R ++ [m]), [])) ∧
    (∀ (s : BrokerState) (c : ChannelId) (R : Role),
      step s (.connect c R.str) =
        ((s.setClient R (some c)).setQueue R [],
          (s.message_queue R).map (Out.sendTo R c))) ∧
    (∀ (s : BrokerState) (c : ChannelId) (R : Role) (es : List Event),
      (run s (.connect c R.str :: es)).2 =
        (s.message_queue R).map (Out.sendTo R c) ++
          (run ((s.setClient R (some c)).setQueue R []) es).2) ∧
    (∀ (s : BrokerState) (e : Event) (r : Role) (c : ChannelId) (m : Msg),
      Out.sendTo r c m ∈ (step s e).2 → (step s e).1.clients r = some c) := by
  refine ⟨?_, ?_, ?_, ?_⟩
  · intro s R m h
    simp [step, Role.opposite_opposite, h]
  · intro s c R
    simp [step, parseRole_str]
  · intro s c R es
    simp [run, step, parseRole_str]
  · intro s e r c m hmem
    cases e with
    | connect c' decl =>
      cases hp : parseRole decl with
      | none => simp [step, hp] at hmem
      | some r' =>
        simp only [step, hp] at hmem ⊢
        obtain ⟨m', _, heq⟩ := List.mem_map.mp hmem
        cases heq
        simp [BrokerState.setQueue, BrokerState.setClient]
    | recvMsg r' m' =>
      cases hc : s.clients r'.opposite with
      | none => simp [step, hc] at hmem
      | some c'' =>
        simp only [step, hc, List.mem_singleton] at hmem
        cases hmem
        simp [step, hc]
    | disconnect r' c' => simp [step] at hmem

/-- Witness for C1: with the receiver slot unbound, a message from the
sender channel is queued (conjunct a); and with channel 7 bound as
receiver, a send emitted for a sender-channel message targets the bound
channel 7 (conjunct d). -/
theorem pending_queue_fifo_drain_witness :
    (initBroker.clients .receiver = none ∧
      step initBroker (.recvMsg Role.receiver.opposite "offer") =
        (initBroker.setQueue .receiver
          (initBroker.message_queue .receiver ++ ["offer"]), [])) ∧
    (Out.sendTo .receiver 7 "offer" ∈
        (step (initBroker.setClient .receiver (some 7))
          (.recvMsg .sender "offer")).2 ∧
      (step (initBroker.setClient .receiver (some 7))
          (.recvMsg .sender "offer")).1.clients .receiver = some 7) :=
  ⟨⟨rfl, pending_queue_fifo_drain.1 initBroker .receiver "offer" rfl⟩,
    ⟨by decide,
      pending_queue_fifo_drain.2.2.2
        (initBroker.setClient .receiver (some 7))
        (.recvMsg .sender "offer") .receiver 7 "offer" (by decide)⟩⟩

lemma deliveredTo_append (R : Role) (xs ys : List Out) :
    deliveredTo R (xs ++ ys) = deliveredTo R xs ++ deliveredTo R ys := by
  induction xs with
  | nil => rfl
  | cons o os ih =>
    cases o with
    | sendTo r c m =>
      by_cases h : r = R <;> simp [deliveredTo, h, ih]
    | sendText c t => simp [deliveredTo, ih]
    | closeChan c => simp [deliveredTo, ih]

lemma deliveredTo_map_sendTo (R r : Role) (c : ChannelId) (q : List Msg) :
    deliveredTo R (q.map (Out.sendTo r c)) = if r = R then q else [] := by
  induction q with
  | nil => simp [deliveredTo]
  | cons m ms ih =>
    by_cases h : r = R
    · subst h
      simp [deliveredTo] at ih ⊢
      exact ih
    · simp [deliveredTo, h] at ih ⊢
      exact ih

/-- The reachable-state invariant (queue non-empty only while unbound) is
preserved by every broker step. -/
lemma goodState_step (s : BrokerState) (e : Event) (h : goodState s) :
    goodState (step s e).1 := by
  cases e with
  | connect c decl =>
    cases hp : parseRole decl with
    | none => simpa [step, hp] using h
    | some r =>
      intro R hq
      simp only [step, hp] at hq ⊢
      by_cases hR : R = r
      · subst hR
        simp [BrokerState.setQueue, BrokerState.setClient] at hq
      · simp only [BrokerState.setQueue, BrokerState.setClient, hR,
          if_false] at hq ⊢
        exact h R hq
  | recvMsg r m =>
    cases hc : s.clients r.opposite with
    | some c => simpa [step, hc] using h
    | none =>
      intro R hq
      simp only [step, hc] at hq ⊢
      by_cases hR : R = r.opposite
      · subst hR
        simpa [BrokerState.setQueue] using hc
      · simp only [BrokerState.setQueue, hR, if_false] at hq ⊢
        exact h R hq
  | disconnect r c =>
    intro R hq
    simp only [step, BrokerState.setClient] at hq ⊢
    by_cases hR : R = r
    · simp [hR]
    · simp only [hR, if_false]
      exact h R hq

lemma run_cons (s : BrokerState) (e : Event) (es : List Event) :
    run s (e :: es) =
      ((run (step s e).1 es).1, (step s e).2 ++ (run (step s e).1 es).2) := by
  rcases hstep : step s e with ⟨s1, outs⟩
  rcases hrun : run s1 es with ⟨s2, outs2⟩
  simp [run, hstep, hrun]

lemma arrivalsTo_cons (R : Role) (e : Event) (es : List Event) :
    arrivalsTo R (e :: es) = arrivalsOf R e ++ arrivalsTo R es := by
  cases e with
  | recvMsg r m =>
    by_cases h : r.opposite = R <;> simp [arrivalsTo, arrivalsOf, h]
  | connect c decl => simp [arrivalsTo, arrivalsOf]
  | disconnect r c => simp [arrivalsTo, arrivalsOf]

/-- One-step FIFO accounting: what a step delivers to role `R` followed by
what remains queued for `R` equals what was queued before followed by what
arrived for `R` in the event. Needs the reachable-state invariant for the
immediate-forward case (a bound slot has an empty queue). -/
lemma step_fifo (s : BrokerState) (e : Event) (R : Role) (h : goodState s) :
    deliveredTo R (step s e).2 ++ (step s e).1.message_queue R =
      s.message_queue R ++ arrivalsOf R e := by
  cases e with
  | connect c decl =>
    cases hp : parseRole decl with
    | none => simp [step, hp, deliveredTo, arrivalsOf]
    | some r =>
      simp only [step, hp, deliveredTo_map_sendTo, arrivalsOf]
      by_cases hR : r = R
      · subst hR
        simp [BrokerState.setQueue, BrokerState.setClient]
      · have hR' : R ≠ r := fun hh => hR hh.symm
        simp [BrokerState.setQueue, BrokerState.setClient, hR, hR']
  | recvMsg r m =>
    cases hc : s.clients r.opposite with
    | some c =>
      simp only [step, hc, arrivalsOf]
      by_cases hR : r.opposite = R
      · have hqe : s.message_queue R = [] := by
          by_contra hne
          have := h R hne
          rw [hR] at hc
          rw [this] at hc
          exact Option.noConfusion hc
        simp [deliveredTo, hR, hqe]
      · simp [deliveredTo, hR]
    | none =>
      simp only [step, hc, arrivalsOf, deliveredTo]
      by_cases hR : r.opposite = R
      · subst hR
        simp [BrokerState.setQueue]
      · have hR' : R ≠ r.opposite := fun hh => hR hh.symm
        simp [BrokerState.setQueue, hR, hR']
  | disconnect r c =>
    simp [step, deliveredTo, arrivalsOf, BrokerState.setClient]

/-- C2. End-to-end order preservation per role: over any run of broker
events from a state satisfying the reachable-state invariant (queues
non-empty only while unbound, which holds from the initial state), the
messages delivered to role `R`'s channel followed by the messages still
pending for `R` are exactly the initially pending messages followed by
the messages addressed to `R` in arrival order. Hence deliveries — via
the immediate-forward path and the bind-time queue drain alike — never
interleave a later-arrived message before an earlier-arrived one. -/
theorem per_role_order_preserved (s : BrokerState) (es : List Event)
    (R : Role) (h : goodState s) :
    deliveredTo R (run s es).2 ++ (run s es).1.message_queue R =
      s.message_queue R ++ arrivalsTo R es := by
  induction es generalizing s with
  | nil => simp [run, deliveredTo, arrivalsTo]
  | cons e es ih =>
    rw [run_cons, arrivalsTo_cons]
    have IH := ih (step s e).1 (goodState_step s e h)
    calc
      deliveredTo R ((step s e).2 ++ (run (step s e).1 es).2) ++
          (run (step s e).1 es).1.message_queue R
        = deliveredTo R (step s e).2 ++
            (deliveredTo R (run (step s e).1 es).2 ++
              (run (step s e).1 es).1.message_queue R) := by
          rw [deliveredTo_append, List.append_assoc]
      _ = deliveredTo R (step s e).2 ++
            ((step s e).1.message_queue R ++ arrivalsTo R es) := by rw [IH]
      _ = (deliveredTo R (step s e).2 ++ (step s e).1.message_queue R) ++
            arrivalsTo R es := by rw [List.append_assoc]
      _ = (s.message_queue R ++ arrivalsOf R e) ++ arrivalsTo R es := by
          rw [step_fifo s e R h]
      _ = s.message_queue R ++ (arrivalsOf R e ++ arrivalsTo R es) := by
          rw [List.append_assoc]

/-- Witness for C2: two messages queued for the receiver while unbound
are delivered at bind time in their arrival order. -/
theorem per_role_order_preserved_witness :
    goodState initBroker ∧
    (deliveredTo .receiver
        (run initBroker [.recvMsg .sender "m1", .recvMsg .sender "m2",
          .connect 3 "receiver"]).2 ++
      (run initBroker [.recvMsg .sender "m1", .recvMsg .sender "m2",
          .connect 3 "receiver"]).1.message_queue .receiver =
      initBroker.message_queue .receiver ++
        arrivalsTo .receiver [.recvMsg .sender "m1", .recvMsg .sender "m2",
          .connect 3 "receiver"]) :=
  have hg : goodState initBroker := fun _ hq => absurd rfl hq
  ⟨hg, per_role_order_preserved initBroker
    [.recvMsg .sender "m1", .recvMsg .sender "m2", .connect 3 "receiver"]
    .receiver hg⟩

lemma closedOf_map_sendTo (r : Role) (c : ChannelId) (q : List Msg) :
    closedOf (q.map (Out.sendTo r c)) = [] := by
  induction q with
  | nil => rfl
  | cons m ms ih =>
    simp only [List.map_cons, closedOf, List.filterMap_cons] at ih ⊢
    exact ih

/-- C4. Send-safety and its inductive invariant: if no closed channel
occupies a slot (`Inv`) and the event is well-formed (a connecting
channel is fresh, a disconnecting channel is not bound in the opposite
slot), then (i) every send the step emits — queue-drain and
immediate-forward alike — targets a channel that is neither previously
closed nor closed by this event, and (ii) `Inv` is preserved for the
extended closed set, so the property holds at every point of every
well-formed run. -/
theorem no_send_to_closed_channel (s : BrokerState)
    (closed : List ChannelId) (e : Event) (hInv : Inv s closed)
    (hwf : freshFor s closed e) :
    (∀ (r : Role) (c : ChannelId) (m : Msg),
      Out.sendTo r c m ∈ (step s e).2 → c ∉ closed ++ closedBy e) ∧
    Inv (step s e).1 (closed ++ closedBy e ++ closedOf (step s e).2) := by
  cases e with
  | connect c' decl =>
    obtain ⟨hfresh, hnot⟩ := hwf
    cases hp : parseRole decl with
    | none =>
      constructor
      · intro r c m hmem
        simp [step, hp] at hmem
      · intro R c hc
        simp only [step, hp] at hc ⊢
        simp only [closedBy, closedOf, List.filterMap, List.append_nil]
        simp only [List.mem_append, List.mem_cons, List.not_mem_nil]
        push_neg
        exact ⟨hInv R c hc, fun hcc => hnot R (hcc ▸ hc), fun hf => hf.elim⟩
    | some r' =>
      constructor
      · intro r c m hmem
        simp only [step, hp] at hmem
        obtain ⟨m', _, heq⟩ := List.mem_map.mp hmem
        cases heq
        simpa [closedBy] using hfresh
      · intro R c hc
        simp only [step, hp, closedBy, closedOf_map_sendTo,
          List.append_nil] at hc ⊢
        simp only [BrokerState.setQueue, BrokerState.setClient] at hc
        by_cases hR : R = r'
        · simp only [hR, if_pos rfl] at hc
          cases hc
          exact hfresh
        · simp only [hR, if_false] at hc
          exact hInv R c hc
  | recvMsg r' m' =>
    cases hc : s.clients r'.opposite with
    | some c'' =>
      constructor
      · intro r c m hmem
        simp only [step, hc, List.mem_singleton] at hmem
        cases hmem
        simpa [closedBy] using hInv r'.opposite c'' hc
      · intro R c hcl
        simp only [step, hc] at hcl ⊢
        simpa [closedBy, closedOf, List.filterMap] using hInv R c hcl
    | none =>
      constructor
      · intro r c m hmem
        simp [step, hc] at hmem
      · intro R c hcl
        simp only [step, hc, BrokerState.setQueue] at hcl ⊢
        simpa [closedBy, closedOf, List.filterMap] using hInv R c hcl
  | disconnect r' c' =>
    constructor
    · intro r c m hmem
      simp [step] at hmem
    · intro R c hcl
      simp only [step, BrokerState.setClient] at hcl ⊢
      by_cases hR : R = r'
      · simp [hR] at hcl
      · simp only [hR, if_false] at hcl
        have hRo : R = r'.opposite := Role.eq_opposite_of_ne hR
        have h1 : c ∉ closed := hInv R c hcl
        have h2 : c ≠ c' := by
          intro hcc
          subst hcc
          rw [hRo] at hcl
          exact absurd hcl hwf
        simp only [closedBy, closedOf, List.filterMap, List.append_nil,
          List.mem_append, List.mem_cons, List.not_mem_nil]
        push_neg
        exact ⟨h1, h2, fun hf => hf.elim⟩

/-- Witness for C4: with channel 5 bound as sender and channel 3 closed,
relaying a message from the receiver channel sends to channel 5, which is
not closed. -/
theorem no_send_to_closed_channel_witness :
    (Inv (initBroker.setClient .sender (some 5)) [3] ∧
      freshFor (initBroker.setClient .sender (some 5)) [3]
        (.recvMsg .receiver "answer")) ∧
    ((∀ (r : Role) (c : ChannelId) (m : Msg),
      Out.sendTo r c m ∈
        (step (initBroker.setClient .sender (some 5))
          (.recvMsg .receiver "answer")).2 →
      c ∉ [3] ++ closedBy (.recvMsg .receiver "answer")) ∧
    Inv (step (initBroker.setClient .sender (some 5))
        (.recvMsg .receiver "answer")).1
      ([3] ++ closedBy (.recvMsg .receiver "answer") ++
        closedOf (step (initBroker.setClient .sender (some 5))
          (.recvMsg .receiver "answer")).2)) :=
  have hInv : Inv (initBroker.setClient .sender (some 5)) [3] := by
    intro R c hc
    cases R with
    | sender =>
      simp [initBroker, BrokerState.setClient] at hc
      subst hc
      decide
    | receiver => simp [initBroker, BrokerState.setClient] at hc
  have hwf : freshFor (initBroker.setClient .sender (some 5)) [3]
      (.recvMsg .receiver "answer") := trivial
  ⟨⟨hInv, hwf⟩,
    no_send_to_closed_channel (initBroker.setClient .sender (some 5)) [3]
      (.recvMsg .receiver "answer") hInv hwf⟩

end WebRTC
